import Mathlib

/-!
Verification of the plugin discovery and lifecycle-composition layer in
src/framework/plugin.ts.

Modelling conventions, each justified against the source:

* JavaScript strings are modelled as lists of characters (JsString).
* Process termination via fatal(...) is modelled as the error branch of an
  Except value: a fatal diagnostic is Except.error, a returned value is
  Except.ok.  Third-party code that may throw is modelled as functions
  returning Except values.
* Dynamic module resolution (the require call on a dependency name) is
  modelled as an environment Env mapping a dependency name either to an
  error (resolution throws) or to the resolved PluginPackage.  A package
  whose create export is absent or not a function is modelled with
  create = none.
* The defining function of a plugin receives the Lens and performs a
  sequence of registrar calls (workflow / runtime); the utilities in the
  Lens have no effect on this layer.  A defining function is therefore
  modelled as the list of registrar calls it performs (Definer); the two
  mutable slots in the scope of the create function are modelled by
  explicit state threading (CreateState).
* The dependency record of the manifest is modelled as an association
  list; Object.keys returns string keys in insertion order (integer-like
  keys, which can never match the plugin pattern, aside), so the key list
  in document order is the list of first components.
* External collaborator types (the project layout handle, watcher events,
  request and context values of the runtime contributions) are opaque to
  this layer; they are modelled as one-field structures.
-/

/-- A JavaScript string, modelled as its list of characters. -/
abbrev JsString := List Char

/-- Payload of a thrown JavaScript error; opaque to this layer. -/
abbrev PluginError := String

/-- Opaque stand-in for the external project layout handle (Layout.Layout). -/
structure Layout where
  layoutToken : Nat

/-- Database choices of the OnAfterBaseSetupLens in the source. -/
inductive DatabaseKind where
  | sqlite
  | mysql
  | postgresql

/-- Lens handed to the onAfterBaseSetup hook. -/
structure OnAfterBaseSetupLens where
  database : Option DatabaseKind
  connectionURI : Option JsString

/-- Settings contributions of the dev phase (addToSettings in the source). -/
structure AddToSettings where
  watchFilePatterns : Option (List JsString)
  ignoreFilePatterns : Option (List JsString)

/-- Opaque stand-in for a file watcher event of the external watcher. -/
structure FileWatcherEvent where
  eventToken : Nat

/-- Hooks of the create phase. -/
structure CreatePhaseHooks where
  onAfterBaseSetup : Option (OnAfterBaseSetupLens → Unit)

/-- Hooks of the dev phase; addToSettings is a required key. -/
structure DevPhaseHooks where
  onStart : Option (Unit → Unit)
  onFileWatcherEvent : Option (FileWatcherEvent → Unit)
  addToSettings : AddToSettings

/-- Hooks of the generate phase. -/
structure GeneratePhaseHooks where
  onStart : Option (Unit → Unit)

/-- Hooks of the build phase. -/
structure BuildPhaseHooks where
  onStart : Option (Unit → Unit)

/-- The WorkflowHooks record of the source: four required phase keys. -/
structure WorkflowHooks where
  create : CreatePhaseHooks
  dev : DevPhaseHooks
  generate : GeneratePhaseHooks
  build : BuildPhaseHooks

/-- Opaque stand-in for an Express request value. -/
structure ExpressRequest where
  requestToken : Nat

/-- Opaque stand-in for a context value a plugin constructs per request. -/
structure ContextValue where
  contextToken : Nat

/-- Type generation descriptors of the context facet: field descriptors and
optional import specifications (pairs of the alias and the module path). -/
structure TypeGenSpec where
  fields : List (JsString × JsString)
  imports : Option (List (JsString × JsString))

/-- Context facet of RuntimeContributions. -/
structure ContextContribution where
  typeGen : TypeGenSpec
  create : ExpressRequest → ContextValue

/-- Framework-configuration facet: entries merged into the plugin list of
the external schema-building library, opaque to this layer. -/
structure NexusContribution where
  plugins : List JsString

/-- The RuntimeContributions record of the source: two optional facets. -/
structure RuntimeContributions where
  context : Option ContextContribution
  nexus : Option NexusContribution

/-- A workflow definer as registered through the Lens: receives the hooks
record and the workflow context (holding the layout), mutates the record
(modelled as returning the updated record) and may throw. -/
def WorkflowDefinerFn : Type := WorkflowHooks → Layout → Except PluginError WorkflowHooks

/-- A runtime producer as registered through the Lens: zero-argument, may
throw, otherwise returns the runtime contributions. -/
def RuntimePluginFn : Type := Unit → Except PluginError RuntimeContributions

/-- One registrar call a defining function performs on its Lens. -/
inductive RegEvent where
  | workflow (f : WorkflowDefinerFn)
  | runtime (f : RuntimePluginFn)

/-- A defining function, modelled as the sequence of registrar calls it
performs on the Lens it is given.  Utility usage has no effect here. -/
abbrev Definer := List RegEvent

/-- The two mutable slots declared in the scope of create in the source. -/
structure CreateState where
  maybeWorkflowPlugin : Option WorkflowDefinerFn
  maybeRuntimePlugin : Option RuntimePluginFn

/-- Slot state right after create(definer) is invoked: both slots unset. -/
def emptyCreateState : CreateState :=
  { maybeWorkflowPlugin := none, maybeRuntimePlugin := none }

/-- Effect of invoking the defining function once on the current slot
state: each registrar call assigns its slot, a later call overwriting an
earlier one. -/
def runDefiner : Definer → CreateState → CreateState
  | [], s => s
  | RegEvent.workflow f :: rest, s =>
      runDefiner rest { s with maybeWorkflowPlugin := some f }
  | RegEvent.runtime f :: rest, s =>
      runDefiner rest { s with maybeRuntimePlugin := some f }

/-- The Driver shape of the source: name, the two capability flags, and the
two lazy loader operations. -/
structure Driver where
  name : JsString
  extendsWorkflow : Bool
  extendsRuntime : Bool
  loadWorkflowPlugin : Layout → Except PluginError WorkflowHooks
  loadRuntimePlugin : Unit → Except PluginError (Option RuntimeContributions)

/-- The fully-shaped default hooks record built by loadWorkflowPlugin on
every call: all four phase keys present, dev.addToSettings present, every
optional hook unset. -/
def defaultWorkflowHooks : WorkflowHooks :=
  { create := { onAfterBaseSetup := none }
    dev := { onStart := none
             onFileWatcherEvent := none
             addToSettings := { watchFilePatterns := none, ignoreFilePatterns := none } }
    generate := { onStart := none }
    build := { onStart := none } }

/-- Model of create from the source.  The returned creator closes over the
two slots of CreateState; applying it is modelled as a function of the
current slot state and the plugin name, returning the Driver together with
the updated slot state.  The defining function is invoked exactly once per
application (one runDefiner folding).  The loaders close over the slot
values as they stand after that invocation. -/
def create (definer : Definer) (s : CreateState) (pluginName : JsString) :
    Driver × CreateState :=
  let s2 := runDefiner definer s
  ({ name := pluginName
     extendsWorkflow := s2.maybeWorkflowPlugin.isSome
     extendsRuntime := s2.maybeRuntimePlugin.isSome
     loadWorkflowPlugin := fun layout =>
       match s2.maybeWorkflowPlugin with
       | none => Except.ok defaultWorkflowHooks
       | some f => f defaultWorkflowHooks layout
     loadRuntimePlugin := fun _ =>
       match s2.maybeRuntimePlugin with
       | none => Except.ok none
       | some g => Except.map some (g ()) }, s2)

/-- Driver produced by the first application of a fresh creator, the way
the load pipeline uses create in the source. -/
def createDriver (definer : Definer) (pluginName : JsString) : Driver :=
  (create definer emptyCreateState pluginName).1

/-- True when the defining function registers a workflow definer. -/
def registersWorkflow (definer : Definer) : Bool :=
  definer.any fun e =>
    match e with
    | RegEvent.workflow _ => true
    | RegEvent.runtime _ => false

/-- True when the defining function registers a runtime producer. -/
def registersRuntime (definer : Definer) : Bool :=
  definer.any fun e =>
    match e with
    | RegEvent.workflow _ => false
    | RegEvent.runtime _ => true

/-- Last workflow definer registered by the defining function, if any. -/
def lastWorkflow : Definer → Option WorkflowDefinerFn
  | [] => none
  | RegEvent.workflow f :: rest =>
      match lastWorkflow rest with
      | some g => some g
      | none => some f
  | RegEvent.runtime _ :: rest => lastWorkflow rest

/-- Last runtime producer registered by the defining function, if any. -/
def lastRuntime : Definer → Option RuntimePluginFn
  | [] => none
  | RegEvent.workflow _ :: rest => lastRuntime rest
  | RegEvent.runtime f :: rest =>
      match lastRuntime rest with
      | some g => some g
      | none => some f

/-- Fatal diagnostics emitted by the load pipeline.  Each carries the
canonical plugin name the message reports. -/
inductive Diag where
  | resolveError (pluginName : JsString) (error : PluginError)
  | noCreateExport (pluginName : JsString)
  | loadError (pluginName : JsString) (error : PluginError)
  | workflowLoadError (pluginName : JsString) (error : PluginError)
  | runtimeLoadError (pluginName : JsString) (error : PluginError)

/-- Plugin name a diagnostic reports. -/
def Diag.pluginName : Diag → JsString
  | Diag.resolveError n _ => n
  | Diag.noCreateExport n => n
  | Diag.loadError n _ => n
  | Diag.workflowLoadError n _ => n
  | Diag.runtimeLoadError n _ => n

/-- A resolved plugin package.  The source checks typeof create for being a
function; an absent or non-function create export is modelled as none.  An
invocation of the creation capability may throw. -/
structure PluginPackage where
  create : Option (JsString → Except PluginError Driver)

/-- Dynamic module resolution: maps a dependency name to the resolved
package, or to the error the resolution throws. -/
abbrev Env := JsString → Except PluginError PluginPackage

/-- Shape of the manifest document as this layer reads it: the dependency
record under the dependencies key (association list in document order) and,
for stating claims about ignored keys, the devDependencies record.  All
other manifest content is never accessed. -/
structure PackageJson where
  dependencies : Option (List (JsString × JsString))
  devDependencies : Option (List (JsString × JsString))

/-- Traversal with the fatal-on-error policy of the source: the map over
matched dependencies runs elementwise, and the first fatal call terminates
the whole load, so no later element is processed and no list is produced. -/
def mapFatal {ε α β : Type} (f : α → Except ε β) : List α → Except ε (List β)
  | [] => Except.ok []
  | x :: rest =>
    match f x with
    | Except.error d => Except.error d
    | Except.ok y =>
      match mapFatal f rest with
      | Except.error d => Except.error d
      | Except.ok ys => Except.ok (y :: ys)

/-- The fixed plugin package name pattern stem, pumpkins-plugin- followed
by at least one further character. -/
def pumpkinsPluginStem : JsString := "pumpkins-plugin-".toList

/-- JavaScript line terminators: the dot of a regular expression without
the dotAll flag matches any character except these. -/
def isLineTerminator (c : Char) : Bool :=
  c == '\n' || c == '\r' || c == '\u2028' || c == '\u2029'

/-- Character class matched by the dot in the source regular expression. -/
def jsDot (c : Char) : Bool := !isLineTerminator c

/-- Model of parsePluginName: matches the anchored regular expression with
stem pumpkins-plugin- followed by a greedy one-or-more dot group, and
returns the captured group.  The capture is the longest run of
non-line-terminator characters following the stem and must be non-empty. -/
def parsePluginName (packageName : JsString) : Option JsString :=
  if pumpkinsPluginStem.isPrefixOf packageName then
    if ((packageName.drop pumpkinsPluginStem.length).takeWhile jsDot).isEmpty then none
    else some ((packageName.drop pumpkinsPluginStem.length).takeWhile jsDot)
  else none

/-- The filter test of the load pipeline: whether a dependency name matches
the plugin package pattern (the match call on the capture-free twin of the
parsePluginName expression returns non-null exactly when parsePluginName
returns a name). -/
def matchesPluginPattern (depName : JsString) : Bool :=
  (parsePluginName depName).isSome

/-- The canonical plugin name of a matched dependency name.  The source
applies a non-null assertion, justified by the pattern filter; the model
uses an empty-string default that is unreachable for matched names. -/
def parsedName (depName : JsString) : JsString :=
  (parsePluginName depName).getD []

/-- The matched dependency names of a manifest, in declaration order (the
local pumpkinsPluginDepNames of the source). -/
def pumpkinsPluginDepNames (pkg : PackageJson) : List JsString :=
  ((pkg.dependencies.getD []).map Prod.fst).filter matchesPluginPattern

/-- One step of the driver factory on a matched dependency name: resolve
the module (fatal on a thrown error, naming the plugin), validate the
create export (fatal when absent or not a function), invoke the creation
capability with the canonical plugin name (fatal on a thrown error). -/
def instantiatePlugin (env : Env) (depName : JsString) : Except Diag Driver :=
  match env depName with
  | Except.error e => Except.error (Diag.resolveError (parsedName depName) e)
  | Except.ok somePlugin =>
    match somePlugin.create with
    | none => Except.error (Diag.noCreateExport (parsedName depName))
    | some createFn =>
      match createFn (parsedName depName) with
      | Except.error e => Except.error (Diag.loadError (parsedName depName) e)
      | Except.ok driver => Except.ok driver

/-- Whether the driver factory pipeline fails on a dependency name under a
given environment: resolution throws, or the create export is missing or
not a function, or invoking the creation capability throws. -/
def depFails (env : Env) (depName : JsString) : Bool :=
  match env depName with
  | Except.error _ => true
  | Except.ok somePlugin =>
    match somePlugin.create with
    | none => true
    | some createFn =>
      match createFn (parsedName depName) with
      | Except.error _ => true
      | Except.ok _ => false

/-- The shared load logic of the source: absent manifest yields an empty
list, empty dependency record yields an empty list, no matched name yields
an empty list, otherwise each matched name is instantiated in declaration
order under the fatal-on-error policy. -/
def __doLoadAllFromPackageJson (env : Env) (packageJson : Option PackageJson) :
    Except Diag (List Driver) :=
  match packageJson with
  | none => Except.ok []
  | some pkg =>
    if (((pkg.dependencies.getD []).map Prod.fst)).isEmpty then Except.ok []
    else if (pumpkinsPluginDepNames pkg).isEmpty then Except.ok []
    else mapFatal (instantiatePlugin env) (pumpkinsPluginDepNames pkg)

/-- The suspension-capable entry point: awaits the manifest read and hands
the document to the shared logic; modelled as a function of the document
the read produced. -/
def loadAllFromPackageJson (env : Env) (packageJson : Option PackageJson) :
    Except Diag (List Driver) :=
  __doLoadAllFromPackageJson env packageJson

/-- The blocking entry point: reads the manifest synchronously and hands
the document to the shared logic; modelled as a function of the document
the read produced. -/
def loadAllFromPackageJsonSync (env : Env) (packageJson : Option PackageJson) :
    Except Diag (List Driver) :=
  __doLoadAllFromPackageJson env packageJson

/-- Workflow loading of a single driver under the fatal-on-error policy of
the aggregator: a thrown error is fatal, naming the driver. -/
def loadWorkflowComponent (layout : Layout) (driver : Driver) :
    Except Diag WorkflowHooks :=
  match driver.loadWorkflowPlugin layout with
  | Except.error e => Except.error (Diag.workflowLoadError driver.name e)
  | Except.ok hooks => Except.ok hooks

/-- The aggregation body of loadAllWorkflowPluginsFromPackageJson, stated
over a driver list: filter to the workflow-extending drivers, load each in
order, fatal on a thrown error. -/
def __doLoadAllWorkflowPlugins (layout : Layout) (plugins : List Driver) :
    Except Diag (List WorkflowHooks) :=
  mapFatal (loadWorkflowComponent layout) (plugins.filter fun d => d.extendsWorkflow)

/-- Load all workflow plugins: load every driver, then aggregate the
workflow hooks of the workflow-extending ones in manifest order. -/
def loadAllWorkflowPluginsFromPackageJson (env : Env)
    (packageJson : Option PackageJson) (layout : Layout) :
    Except Diag (List WorkflowHooks) :=
  match __doLoadAllFromPackageJson env packageJson with
  | Except.error diag => Except.error diag
  | Except.ok plugins => __doLoadAllWorkflowPlugins layout plugins

/-- Empty contributions record.  Stands for the value flowing through the
non-null assertion of the source when a driver reports extendsRuntime and
still yields no contributions; unreachable for drivers built by create. -/
def emptyRuntimeContributions : RuntimeContributions :=
  { context := none, nexus := none }

/-- Runtime loading of a single driver under the fatal-on-error policy of
the aggregator: a thrown error is fatal, naming the driver. -/
def loadRuntimeComponent (driver : Driver) : Except Diag RuntimeContributions :=
  match driver.loadRuntimePlugin () with
  | Except.error e => Except.error (Diag.runtimeLoadError driver.name e)
  | Except.ok (some contributions) => Except.ok contributions
  | Except.ok none => Except.ok emptyRuntimeContributions

/-- Logic shared between the two runtime entry points: filter to the
runtime-extending drivers, load each in order, fatal on a thrown error. -/
def __doLoadAllRuntimePluginsFromPackageJson (plugins : List Driver) :
    Except Diag (List RuntimeContributions) :=
  mapFatal loadRuntimeComponent (plugins.filter fun d => d.extendsRuntime)

/-- Suspension-capable runtime aggregation entry point. -/
def loadAllRuntimePluginsFromPackageJson (env : Env)
    (packageJson : Option PackageJson) : Except Diag (List RuntimeContributions) :=
  match loadAllFromPackageJson env packageJson with
  | Except.error diag => Except.error diag
  | Except.ok plugins => __doLoadAllRuntimePluginsFromPackageJson plugins

/-- Blocking runtime aggregation entry point. -/
def loadAllRuntimePluginsFromPackageJsonSync (env : Env)
    (packageJson : Option PackageJson) : Except Diag (List RuntimeContributions) :=
  match loadAllFromPackageJsonSync env packageJson with
  | Except.error diag => Except.error diag
  | Except.ok plugins => __doLoadAllRuntimePluginsFromPackageJson plugins

/-- Concrete layout value used by witnesses. -/
def layout0 : Layout := { layoutToken := 0 }

/-- Concrete workflow definer used by witnesses and counterexamples: keeps
the hooks record unchanged. -/
def exampleWorkflowFn : WorkflowDefinerFn := fun hooks _ => Except.ok hooks

/-- Concrete runtime contributions record used by witnesses. -/
def contribA : RuntimeContributions :=
  { context := none, nexus := some { plugins := ["nexus-plugin-a".toList] } }

/-- Second concrete runtime contributions record used by witnesses. -/
def contribC : RuntimeContributions :=
  { context := none, nexus := some { plugins := ["nexus-plugin-c".toList] } }

/-- Concrete runtime producer used by witnesses. -/
def exampleRuntimeFnA : RuntimePluginFn := fun _ => Except.ok contribA

/-- Second concrete runtime producer used by witnesses. -/
def exampleRuntimeFnC : RuntimePluginFn := fun _ => Except.ok contribC

/-- Concrete driver extending only the runtime lifecycle. -/
def driverA : Driver := createDriver [RegEvent.runtime exampleRuntimeFnA] ("a".toList)

/-- Concrete driver extending neither lifecycle. -/
def driverB : Driver := createDriver [] ("b".toList)

/-- Second concrete driver extending only the runtime lifecycle. -/
def driverC : Driver := createDriver [RegEvent.runtime exampleRuntimeFnC] ("c".toList)

/-- Concrete dependency name of a failing plugin, used by witnesses. -/
def badDepName : JsString := "pumpkins-plugin-bad".toList

/-- Concrete environment in which every module resolution throws. -/
def envAllFail : Env := fun _ => Except.error "resolution throws"

/-- Concrete manifest declaring one matched dependency, used by witnesses. -/
def pkgOneBadDep : PackageJson :=
  { dependencies := some [(badDepName, "1.0.0".toList)], devDependencies := none }

/-! Helper lemmas about the embedded operations. -/

theorem mapFatal_nil {ε α β : Type} (f : α → Except ε β) :
    mapFatal f [] = Except.ok [] := rfl

theorem mapFatal_ok_of_forall {ε α β : Type} (f : α → Except ε β) (g : α → β) :
    ∀ l : List α, (∀ x ∈ l, f x = Except.ok (g x)) →
      mapFatal f l = Except.ok (l.map g) := by
  intro l
  induction l with
  | nil => intro _; rfl
  | cons a t ih =>
    intro h
    have ha := h a (List.mem_cons_self a t)
    have ht := ih fun x hx => h x (List.mem_cons_of_mem a hx)
    simp [mapFatal, ha, ht]

theorem mapFatal_mem_of_ok {ε α β : Type} (f : α → Except ε β) :
    ∀ (l : List α) (ys : List β), mapFatal f l = Except.ok ys →
      ∀ a ∈ l, ∀ b, f a = Except.ok b → b ∈ ys := by
  intro l
  induction l with
  | nil =>
    intro ys _ a ha
    exact absurd ha (List.not_mem_nil a)
  | cons x t ih =>
    intro ys h a ha b hb
    rcases hx : f x with e | y
    · simp [mapFatal, hx] at h
    · rcases ht : mapFatal f t with e2 | ys2
      · simp [mapFatal, hx, ht] at h
      · simp only [mapFatal, hx, ht] at h
        cases h
        rcases List.mem_cons.mp ha with hax | ha2
        · subst hax
          rw [hx] at hb
          cases hb
          exact List.mem_cons_self _ _
        · exact List.mem_cons_of_mem _ (ih ys2 ht a ha2 b hb)

theorem mapFatal_length_get {ε α β : Type} (f : α → Except ε β) :
    ∀ (l : List α) (ys : List β), mapFatal f l = Except.ok ys →
      ys.length = l.length ∧
      ∀ i (h1 : i < l.length) (h2 : i < ys.length),
        f (l.get ⟨i, h1⟩) = Except.ok (ys.get ⟨i, h2⟩) := by
  intro l
  induction l with
  | nil =>
    intro ys h
    cases h
    exact ⟨rfl, fun i h1 _ => absurd h1 (Nat.not_lt_zero i)⟩
  | cons x t ih =>
    intro ys h
    rcases hx : f x with e | y
    · simp [mapFatal, hx] at h
    · rcases ht : mapFatal f t with e2 | ys2
      · simp [mapFatal, hx, ht] at h
      · simp only [mapFatal, hx, ht] at h
        cases h
        have hrest := ih ys2 ht
        refine ⟨by simp [hrest.1], ?_⟩
        intro i h1 h2
        cases i with
        | zero => simpa using hx
        | succ n =>
          simpa using hrest.2 n (by simpa using h1) (by simpa using h2)

theorem instantiatePlugin_fail (env : Env) (x : JsString)
    (h : depFails env x = true) :
    ∃ diag, instantiatePlugin env x = Except.error diag
      ∧ Diag.pluginName diag = parsedName x := by
  unfold depFails at h
  unfold instantiatePlugin
  rcases he : env x with e | sp
  · exact ⟨Diag.resolveError (parsedName x) e, rfl, rfl⟩
  · rw [he] at h
    dsimp only at h ⊢
    rcases hc : sp.create with _ | cf
    · rw [hc] at h
      exact ⟨Diag.noCreateExport (parsedName x), by simp [hc], rfl⟩
    · rw [hc] at h
      dsimp only at h
      rcases hcf : cf (parsedName x) with e | dr
      · exact ⟨Diag.loadError (parsedName x) e, by simp [hc, hcf], rfl⟩
      · rw [hcf] at h
        cases h

theorem instantiatePlugin_ok (env : Env) (x : JsString)
    (h : depFails env x = false) :
    ∃ dr, instantiatePlugin env x = Except.ok dr := by
  unfold depFails at h
  unfold instantiatePlugin
  rcases he : env x with e | sp
  · rw [he] at h; cases h
  · rw [he] at h
    dsimp only at h ⊢
    rcases hc : sp.create with _ | cf
    · rw [hc] at h; cases h
    · rw [hc] at h
      dsimp only at h
      rcases hcf : cf (parsedName x) with e | dr
      · rw [hcf] at h; cases h
      · exact ⟨dr, by simp [hcf]⟩

theorem mapFatal_error_of_find (env : Env) :
    ∀ (l : List JsString) (d : JsString), l.find? (depFails env) = some d →
      ∃ diag, mapFatal (instantiatePlugin env) l = Except.error diag
        ∧ Diag.pluginName diag = parsedName d := by
  intro l
  induction l with
  | nil => intro d h; cases h
  | cons x t ih =>
    intro d h
    by_cases hx : depFails env x = true
    · have hfind : List.find? (depFails env) (x :: t) = some x :=
        List.find?_cons_of_pos t hx
      rw [hfind] at h
      cases h
      obtain ⟨diag, hdiag, hname⟩ := instantiatePlugin_fail env x hx
      exact ⟨diag, by simp [mapFatal, hdiag], hname⟩
    · have hx2 : depFails env x = false := by
        cases hfx : depFails env x
        · rfl
        · exact absurd hfx hx
      have hfind : List.find? (depFails env) (x :: t) = t.find? (depFails env) :=
        List.find?_cons_of_neg t (by simp [hx2])
      rw [hfind] at h
      obtain ⟨dr, hdr⟩ := instantiatePlugin_ok env x hx2
      obtain ⟨diag, hdiag, hname⟩ := ih d h
      exact ⟨diag, by simp [mapFatal, hdr, hdiag], hname⟩

theorem doLoadAll_eq_mapFatal (env : Env) (pkg : PackageJson) :
    __doLoadAllFromPackageJson env (some pkg)
      = mapFatal (instantiatePlugin env) (pumpkinsPluginDepNames pkg) := by
  unfold __doLoadAllFromPackageJson
  by_cases hdn : (((pkg.dependencies.getD []).map Prod.fst)).isEmpty
  · have hempty : ((pkg.dependencies.getD []).map Prod.fst) = [] :=
      List.isEmpty_iff.mp hdn
    simp [hdn, pumpkinsPluginDepNames, hempty, mapFatal]
  · by_cases hm : (pumpkinsPluginDepNames pkg).isEmpty
    · have hempty : pumpkinsPluginDepNames pkg = [] := List.isEmpty_iff.mp hm
      simp [hdn, hm, hempty, mapFatal]
    · simp [hdn, hm]

theorem runDefiner_eq (definer : Definer) :
    ∀ s : CreateState,
      runDefiner definer s =
        { maybeWorkflowPlugin := (lastWorkflow definer).or s.maybeWorkflowPlugin
          maybeRuntimePlugin := (lastRuntime definer).or s.maybeRuntimePlugin } := by
  induction definer with
  | nil => intro s; simp [runDefiner, lastWorkflow, lastRuntime, Option.none_or]
  | cons e rest ih =>
    intro s
    cases e with
    | workflow f =>
      rw [runDefiner, ih]
      rcases hw : lastWorkflow rest with _ | g
      · simp [lastWorkflow, lastRuntime, hw, Option.none_or]
      · simp [lastWorkflow, lastRuntime, hw]
    | runtime f =>
      rw [runDefiner, ih]
      rcases hr : lastRuntime rest with _ | g
      · simp [lastWorkflow, lastRuntime, hr, Option.none_or]
      · simp [lastWorkflow, lastRuntime, hr]

theorem runDefiner_idem (definer : Definer) (s : CreateState) :
    runDefiner definer (runDefiner definer s) = runDefiner definer s := by
  rw [runDefiner_eq, runDefiner_eq]
  rcases hw : lastWorkflow definer with _ | f <;>
    rcases hr : lastRuntime definer with _ | g <;>
      simp [Option.none_or]

theorem registersWorkflow_eq (definer : Definer) :
    registersWorkflow definer = (lastWorkflow definer).isSome := by
  induction definer with
  | nil => rfl
  | cons e rest ih =>
    cases e with
    | workflow f =>
      rcases hw : lastWorkflow rest with _ | g <;>
        simp [registersWorkflow, lastWorkflow, hw]
    | runtime f =>
      rw [lastWorkflow, ← ih]
      simp [registersWorkflow]

theorem registersRuntime_eq (definer : Definer) :
    registersRuntime definer = (lastRuntime definer).isSome := by
  induction definer with
  | nil => rfl
  | cons e rest ih =>
    cases e with
    | runtime f =>
      rcases hr : lastRuntime rest with _ | g <;>
        simp [registersRuntime, lastRuntime, hr]
    | workflow f =>
      rw [lastRuntime, ← ih]
      simp [registersRuntime]

theorem createDriver_extendsWorkflow (definer : Definer) (pluginName : JsString) :
    (createDriver definer pluginName).extendsWorkflow = registersWorkflow definer := by
  rw [registersWorkflow_eq]
  show (runDefiner definer emptyCreateState).maybeWorkflowPlugin.isSome = _
  rw [runDefiner_eq]
  simp [emptyCreateState, Option.or_none]

theorem createDriver_extendsRuntime (definer : Definer) (pluginName : JsString) :
    (createDriver definer pluginName).extendsRuntime = registersRuntime definer := by
  rw [registersRuntime_eq]
  show (runDefiner definer emptyCreateState).maybeRuntimePlugin.isSome = _
  rw [runDefiner_eq]
  simp [emptyCreateState, Option.or_none]

theorem createDriver_loadWorkflow (definer : Definer) (pluginName : JsString)
    (layout : Layout) :
    (createDriver definer pluginName).loadWorkflowPlugin layout =
      match lastWorkflow definer with
      | none => Except.ok defaultWorkflowHooks
      | some f => f defaultWorkflowHooks layout := by
  show (match (runDefiner definer emptyCreateState).maybeWorkflowPlugin with
        | none => Except.ok defaultWorkflowHooks
        | some f => f defaultWorkflowHooks layout) = _
  rw [runDefiner_eq]
  simp [emptyCreateState, Option.or_none]

theorem createDriver_loadRuntime (definer : Definer) (pluginName : JsString) :
    (createDriver definer pluginName).loadRuntimePlugin () =
      match lastRuntime definer with
      | none => Except.ok none
      | some g => Except.map some (g ()) := by
  show (match (runDefiner definer emptyCreateState).maybeRuntimePlugin with
        | none => Except.ok none
        | some g => Except.map some (g ())) = _
  rw [runDefiner_eq]
  simp [emptyCreateState, Option.or_none]

theorem loadAllWorkflow_error (env : Env) (packageJson : Option PackageJson)
    (layout : Layout) (diag : Diag)
    (h : __doLoadAllFromPackageJson env packageJson = Except.error diag) :
    loadAllWorkflowPluginsFromPackageJson env packageJson layout = Except.error diag := by
  unfold loadAllWorkflowPluginsFromPackageJson
  rw [h]

theorem loadAllRuntime_error (env : Env) (packageJson : Option PackageJson)
    (diag : Diag)
    (h : __doLoadAllFromPackageJson env packageJson = Except.error diag) :
    loadAllRuntimePluginsFromPackageJson env packageJson = Except.error diag := by
  unfold loadAllRuntimePluginsFromPackageJson loadAllFromPackageJson
  rw [h]

/-! Claim theorems. -/

/-- Claim C2, counterexample to the claim as stated: the identifier that is
the plugin stem followed by one character (a newline) consists of the
prefix followed by at least one character, yet the matcher returns the
no-match sentinel instead of the non-empty suffix, because the dot of the
source regular expression does not match line terminators. -/
theorem claim2_counterexample :
    "pumpkins-plugin-\n".toList = pumpkinsPluginStem ++ ['\n']
    ∧ ['\n'] ≠ ([] : JsString)
    ∧ parsePluginName ("pumpkins-plugin-\n".toList) = none := by
  refine ⟨by decide, by decide, by decide⟩

/-- Claim C2, amended: the name matcher is a pure total function; it
rejects every identifier not starting with the plugin stem; on an
identifier that is the stem followed by a remainder, it returns the
longest non-empty run of non-line-terminator characters at the start of
the remainder, and the no-match sentinel when that run is empty; the bare
stem and a non-matching identifier such as lodash are rejected, and every
returned name is non-empty. -/
theorem claim2_matcher_amended (s : JsString) :
    (pumpkinsPluginStem.isPrefixOf s = false → parsePluginName s = none)
    ∧ (∀ r : JsString, s = pumpkinsPluginStem ++ r →
        parsePluginName s =
          if (r.takeWhile jsDot).isEmpty then none else some (r.takeWhile jsDot))
    ∧ parsePluginName pumpkinsPluginStem = none
    ∧ parsePluginName ("lodash".toList) = none
    ∧ (∀ pluginName, parsePluginName s = some pluginName → pluginName ≠ []) := by
  refine ⟨?_, ?_, by decide, by decide, ?_⟩
  · intro h
    simp [parsePluginName, h]
  · intro r hr
    subst hr
    have hpre : pumpkinsPluginStem.isPrefixOf (pumpkinsPluginStem ++ r) = true :=
      List.isPrefixOf_iff_prefix.mpr (List.prefix_append _ _)
    have hdrop : (pumpkinsPluginStem ++ r).drop pumpkinsPluginStem.length = r :=
      List.drop_left _ _
    simp only [parsePluginName, hpre, hdrop, if_true]
  · intro pluginName h
    unfold parsePluginName at h
    by_cases hp : pumpkinsPluginStem.isPrefixOf s = true
    · by_cases hemp : ((s.drop pumpkinsPluginStem.length).takeWhile jsDot).isEmpty = true
      · simp [hp, hemp] at h
      · simp [hp, hemp] at h
        intro hnil
        rw [hnil] at h
        exact hemp (List.isEmpty_iff.mpr h)
    · simp [hp] at h

/-- Claim C2, witness: a well-formed plugin identifier parses to its
suffix. -/
theorem claim2_witness :
    parsePluginName ("pumpkins-plugin-auth".toList) = some ("auth".toList) := by
  have h := (claim2_matcher_amended ("pumpkins-plugin-auth".toList)).2.1
    ("auth".toList) (by decide)
  exact h.trans (by decide)

/-- Claim C3: loadWorkflowPlugin always returns a record with all four
phase keys and dev.addToSettings present (the default record exhibits the
full shape, and the definer only ever receives that fully-shaped default),
and when no workflow definer was registered the result is exactly the
untouched default record. -/
theorem claim3_workflow_hooks_shape (definer : Definer) (pluginName : JsString)
    (layout : Layout) :
    (registersWorkflow definer = false →
      (createDriver definer pluginName).loadWorkflowPlugin layout
        = Except.ok defaultWorkflowHooks)
    ∧ (∀ f, lastWorkflow definer = some f →
        (createDriver definer pluginName).loadWorkflowPlugin layout
          = f defaultWorkflowHooks layout)
    ∧ defaultWorkflowHooks =
        { create := { onAfterBaseSetup := none }
          dev := { onStart := none
                   onFileWatcherEvent := none
                   addToSettings := { watchFilePatterns := none, ignoreFilePatterns := none } }
          generate := { onStart := none }
          build := { onStart := none } } := by
  refine ⟨?_, ?_, rfl⟩
  · intro h
    have hlw : lastWorkflow definer = none := by
      rcases hlw0 : lastWorkflow definer with _ | f
      · rfl
      · rw [registersWorkflow_eq, hlw0] at h
        cases h
    rw [createDriver_loadWorkflow, hlw]
  · intro f hf
    rw [createDriver_loadWorkflow, hf]

/-- Claim C3, witness: a plugin registering nothing yields the untouched
default record, and a plugin registering a workflow definer has that
definer applied to the fully-shaped default record. -/
theorem claim3_witness :
    (createDriver [] ("noop".toList)).loadWorkflowPlugin layout0
      = Except.ok defaultWorkflowHooks
    ∧ (createDriver [RegEvent.workflow exampleWorkflowFn] ("wf".toList)).loadWorkflowPlugin layout0
      = exampleWorkflowFn defaultWorkflowHooks layout0 :=
  ⟨(claim3_workflow_hooks_shape [] ("noop".toList) layout0).1 rfl,
   (claim3_workflow_hooks_shape [RegEvent.workflow exampleWorkflowFn] ("wf".toList) layout0).2.1
     exampleWorkflowFn rfl⟩

/-- Claim C6: an absent manifest, a manifest without a dependencies key,
and a manifest with an empty dependency record all yield an empty Driver
list and empty workflow-hook and runtime-contribution lists, never an
error, whatever the environment and the other manifest keys hold. -/
theorem claim6_empty_manifest (env : Env) (layout : Layout)
    (dd : Option (List (JsString × JsString))) :
    loadAllFromPackageJson env none = Except.ok []
    ∧ loadAllFromPackageJsonSync env none = Except.ok []
    ∧ loadAllFromPackageJson env (some { dependencies := none, devDependencies := dd })
        = Except.ok []
    ∧ loadAllFromPackageJson env (some { dependencies := some [], devDependencies := dd })
        = Except.ok []
    ∧ loadAllWorkflowPluginsFromPackageJson env none layout = Except.ok []
    ∧ loadAllRuntimePluginsFromPackageJson env none = Except.ok []
    ∧ loadAllWorkflowPluginsFromPackageJson env
        (some { dependencies := none, devDependencies := dd }) layout = Except.ok []
    ∧ loadAllRuntimePluginsFromPackageJson env
        (some { dependencies := none, devDependencies := dd }) = Except.ok []
    ∧ loadAllWorkflowPluginsFromPackageJson env
        (some { dependencies := some [], devDependencies := dd }) layout = Except.ok []
    ∧ loadAllRuntimePluginsFromPackageJson env
        (some { dependencies := some [], devDependencies := dd }) = Except.ok [] :=
  ⟨rfl, rfl, rfl, rfl, rfl, rfl, rfl, rfl, rfl, rfl⟩

/-- Claim C7: for every manifest document, the blocking and the
suspension-capable entry points return identical results, for the driver
load and for the runtime aggregation; the modes differ only in how the
manifest read is scheduled, which is outside this layer. -/
theorem claim7_sync_async_agree (env : Env) (packageJson : Option PackageJson) :
    loadAllFromPackageJsonSync env packageJson = loadAllFromPackageJson env packageJson
    ∧ loadAllRuntimePluginsFromPackageJsonSync env packageJson
        = loadAllRuntimePluginsFromPackageJson env packageJson :=
  ⟨rfl, rfl⟩

/-- Claim C10: the load result depends only on the dependencies key of the
manifest; changing devDependencies never changes any result, and a
convention-matching identifier present only under devDependencies yields
no driver and empty aggregation lists. -/
theorem claim10_only_dependencies (env : Env)
    (deps dd dd2 : Option (List (JsString × JsString))) (layout : Layout) :
    __doLoadAllFromPackageJson env (some { dependencies := deps, devDependencies := dd })
      = __doLoadAllFromPackageJson env (some { dependencies := deps, devDependencies := dd2 })
    ∧ loadAllWorkflowPluginsFromPackageJson env
        (some { dependencies := deps, devDependencies := dd }) layout
      = loadAllWorkflowPluginsFromPackageJson env
        (some { dependencies := deps, devDependencies := dd2 }) layout
    ∧ loadAllRuntimePluginsFromPackageJson env
        (some { dependencies := deps, devDependencies := dd })
      = loadAllRuntimePluginsFromPackageJson env
        (some { dependencies := deps, devDependencies := dd2 })
    ∧ (∀ depName ver, matchesPluginPattern depName = true →
        __doLoadAllFromPackageJson env
          (some { dependencies := some [], devDependencies := some [(depName, ver)] })
          = Except.ok []
        ∧ loadAllRuntimePluginsFromPackageJson env
          (some { dependencies := some [], devDependencies := some [(depName, ver)] })
          = Except.ok []
        ∧ loadAllWorkflowPluginsFromPackageJson env
          (some { dependencies := some [], devDependencies := some [(depName, ver)] }) layout
          = Except.ok []) :=
  ⟨rfl, rfl, rfl, fun _ _ _ => ⟨rfl, rfl, rfl⟩⟩

/-- Claim C10, witness: a matching identifier placed only under
devDependencies produces no driver. -/
theorem claim10_witness :
    matchesPluginPattern ("pumpkins-plugin-auth".toList) = true
    ∧ __doLoadAllFromPackageJson envAllFail
        (some { dependencies := some []
                devDependencies := some [("pumpkins-plugin-auth".toList, "1.0.0".toList)] })
      = Except.ok [] := by
  refine ⟨by decide, ?_⟩
  exact ((claim10_only_dependencies envAllFail (some []) none none layout0).2.2.2
    ("pumpkins-plugin-auth".toList) ("1.0.0".toList) (by decide)).1

/-- Claim C1: whenever a matched dependency fails the driver factory
pipeline (module resolution throws, the create export is missing or not a
function, or invoking the creation capability throws), the whole load
terminates fatally: no driver list is returned, the diagnostic names the
matched failing plugin whose failure occurs first in manifest order, and
neither the workflow nor the runtime aggregation produces any hooks or
contributions, regardless of the failing position; when the given
dependency is the first failing one, the diagnostic names exactly it. -/
theorem claim1_plugin_failure_aborts_load (env : Env) (pkg : PackageJson)
    (depName : JsString) (layout : Layout)
    (hmem : depName ∈ pumpkinsPluginDepNames pkg)
    (hfail : depFails env depName = true) :
    (∃ diag : Diag,
      __doLoadAllFromPackageJson env (some pkg) = Except.error diag
      ∧ (∃ d, d ∈ pumpkinsPluginDepNames pkg ∧ depFails env d = true
          ∧ Diag.pluginName diag = parsedName d)
      ∧ loadAllWorkflowPluginsFromPackageJson env (some pkg) layout = Except.error diag
      ∧ loadAllRuntimePluginsFromPackageJson env (some pkg) = Except.error diag)
    ∧ ((pumpkinsPluginDepNames pkg).find? (depFails env) = some depName →
        ∃ diag, __doLoadAllFromPackageJson env (some pkg) = Except.error diag
          ∧ Diag.pluginName diag = parsedName depName) := by
  have hfs : ∃ d, (pumpkinsPluginDepNames pkg).find? (depFails env) = some d := by
    rcases hf : (pumpkinsPluginDepNames pkg).find? (depFails env) with _ | d
    · have hnone := List.find?_eq_none.mp hf depName hmem
      exact absurd hfail (by simpa using hnone)
    · exact ⟨d, rfl⟩
  obtain ⟨d, hfind⟩ := hfs
  have hdmem : d ∈ pumpkinsPluginDepNames pkg := List.mem_of_find?_eq_some hfind
  have hdfail : depFails env d = true := List.find?_some hfind
  obtain ⟨diag, hmap, hname⟩ :=
    mapFatal_error_of_find env (pumpkinsPluginDepNames pkg) d hfind
  have hload : __doLoadAllFromPackageJson env (some pkg) = Except.error diag :=
    (doLoadAll_eq_mapFatal env pkg).trans hmap
  refine ⟨⟨diag, hload, ⟨d, hdmem, hdfail, hname⟩,
    loadAllWorkflow_error env (some pkg) layout diag hload,
    loadAllRuntime_error env (some pkg) diag hload⟩, ?_⟩
  intro hfd
  have hdd : d = depName := by
    rw [hfind] at hfd
    cases hfd
    rfl
  subst hdd
  exact ⟨diag, hload, hname⟩

/-- Claim C1, witness: a manifest with one matched dependency whose module
resolution throws makes the load return a fatal diagnostic naming that
plugin. -/
theorem claim1_witness :
    badDepName ∈ pumpkinsPluginDepNames pkgOneBadDep
    ∧ depFails envAllFail badDepName = true
    ∧ ∃ diag, __doLoadAllFromPackageJson envAllFail (some pkgOneBadDep) = Except.error diag
        ∧ Diag.pluginName diag = ("bad".toList) := by
  refine ⟨by decide, by decide, ?_⟩
  obtain ⟨diag, hload, hname⟩ :=
    (claim1_plugin_failure_aborts_load envAllFail pkgOneBadDep badDepName layout0
      (by decide) (by decide)).2 (by decide)
  refine ⟨diag, hload, ?_⟩
  rw [hname]
  decide

/-- Claim C4: a plugin whose defining function registers a runtime
producer and no workflow definer yields a driver with extendsWorkflow
false and extendsRuntime true; its presence anywhere in the driver list
leaves the workflow aggregation unchanged (its hooks appear in no
element), while its contributions belong to any successful runtime
aggregation result; and a driver whose defining function registered no
runtime producer answers loadRuntimePlugin with the absent value. -/
theorem claim4_runtime_only_driver (definer : Definer) (pluginName : JsString)
    (hwf : registersWorkflow definer = false)
    (hrt : registersRuntime definer = true) :
    (createDriver definer pluginName).extendsWorkflow = false
    ∧ (createDriver definer pluginName).extendsRuntime = true
    ∧ (∀ (pre post : List Driver) (layout : Layout),
        __doLoadAllWorkflowPlugins layout (pre ++ createDriver definer pluginName :: post)
          = __doLoadAllWorkflowPlugins layout (pre ++ post))
    ∧ (∀ (pre post : List Driver) (contribs : List RuntimeContributions)
          (c : RuntimeContributions),
        (createDriver definer pluginName).loadRuntimePlugin () = Except.ok (some c) →
        __doLoadAllRuntimePluginsFromPackageJson
          (pre ++ createDriver definer pluginName :: post) = Except.ok contribs →
        c ∈ contribs)
    ∧ (∀ (definer2 : Definer) (name2 : JsString), registersRuntime definer2 = false →
        (createDriver definer2 name2).loadRuntimePlugin () = Except.ok none) := by
  have hew : (createDriver definer pluginName).extendsWorkflow = false :=
    (createDriver_extendsWorkflow definer pluginName).trans hwf
  have her : (createDriver definer pluginName).extendsRuntime = true :=
    (createDriver_extendsRuntime definer pluginName).trans hrt
  refine ⟨hew, her, ?_, ?_, ?_⟩
  · intro pre post layout
    unfold __doLoadAllWorkflowPlugins
    rw [List.filter_append, List.filter_cons_of_neg (by simp [hew]),
      ← List.filter_append]
  · intro pre post contribs c hload hagg
    have hmem : createDriver definer pluginName ∈
        pre ++ createDriver definer pluginName :: post := by
      simp
    have hfmem : createDriver definer pluginName ∈
        (pre ++ createDriver definer pluginName :: post).filter
          (fun d => d.extendsRuntime) :=
      List.mem_filter.mpr ⟨hmem, by simp [her]⟩
    have hcomp : loadRuntimeComponent (createDriver definer pluginName) = Except.ok c := by
      unfold loadRuntimeComponent
      rw [hload]
    exact mapFatal_mem_of_ok loadRuntimeComponent _ contribs hagg _ hfmem c hcomp
  · intro definer2 name2 h2
    rw [createDriver_loadRuntime]
    have hlr : lastRuntime definer2 = none := by
      rcases hl : lastRuntime definer2 with _ | g
      · rfl
      · rw [registersRuntime_eq, hl] at h2
        cases h2
    rw [hlr]

/-- Claim C4, witness: a concrete runtime-only plugin has the two flags as
claimed, its contributions appear in the runtime aggregation result, and a
plugin registering nothing answers loadRuntimePlugin with the absent
value. -/
theorem claim4_witness :
    driverA.extendsWorkflow = false
    ∧ driverA.extendsRuntime = true
    ∧ __doLoadAllRuntimePluginsFromPackageJson [driverA] = Except.ok [contribA]
    ∧ contribA ∈ [contribA]
    ∧ driverB.loadRuntimePlugin () = Except.ok none := by
  have h := claim4_runtime_only_driver [RegEvent.runtime exampleRuntimeFnA]
    ("a".toList) rfl rfl
  refine ⟨h.1, h.2.1, rfl, ?_, ?_⟩
  · exact h.2.2.2.1 [] [] [contribA] contribA rfl rfl
  · exact h.2.2.2.2 [] ("b".toList) rfl

/-- Claim C5: both aggregations preserve manifest declaration order; over
any driver list whose loaders succeed, the workflow result is the ordered
map of the workflow hooks over the order-preserving filter of the
workflow-extending drivers, the runtime result is the symmetric ordered
map over the runtime-extending drivers, and a successful load produces the
drivers positionally aligned with the matched dependency names in
manifest order. -/
theorem claim5_aggregation_order (ds : List Driver) (layout : Layout)
    (hooksOf : Driver → WorkflowHooks) (contribOf : Driver → RuntimeContributions)
    (hwl : ∀ d ∈ ds, d.extendsWorkflow = true →
      d.loadWorkflowPlugin layout = Except.ok (hooksOf d))
    (hrl : ∀ d ∈ ds, d.extendsRuntime = true →
      d.loadRuntimePlugin () = Except.ok (some (contribOf d))) :
    __doLoadAllWorkflowPlugins layout ds
      = Except.ok ((ds.filter (fun d => d.extendsWorkflow)).map hooksOf)
    ∧ __doLoadAllRuntimePluginsFromPackageJson ds
      = Except.ok ((ds.filter (fun d => d.extendsRuntime)).map contribOf)
    ∧ (∀ (env : Env) (pkg : PackageJson) (ds2 : List Driver),
        __doLoadAllFromPackageJson env (some pkg) = Except.ok ds2 →
        ds2.length = (pumpkinsPluginDepNames pkg).length
        ∧ ∀ i (h1 : i < (pumpkinsPluginDepNames pkg).length) (h2 : i < ds2.length),
            instantiatePlugin env ((pumpkinsPluginDepNames pkg).get ⟨i, h1⟩)
              = Except.ok (ds2.get ⟨i, h2⟩)) := by
  refine ⟨?_, ?_, ?_⟩
  · apply mapFatal_ok_of_forall
    intro d hd
    have hdm := List.mem_of_mem_filter hd
    have hdp : d.extendsWorkflow = true := by simpa using List.of_mem_filter hd
    unfold loadWorkflowComponent
    rw [hwl d hdm hdp]
  · apply mapFatal_ok_of_forall
    intro d hd
    have hdm := List.mem_of_mem_filter hd
    have hdp : d.extendsRuntime = true := by simpa using List.of_mem_filter hd
    unfold loadRuntimeComponent
    rw [hrl d hdm hdp]
  · intro env pkg ds2 hld
    exact mapFatal_length_get (instantiatePlugin env) _ ds2
      ((doLoadAll_eq_mapFatal env pkg).symm.trans hld)

/-- Claim C5, witness: with drivers A, B, C where only A and C extend the
runtime lifecycle, the runtime aggregation returns the contributions of A
and C in that order, and the workflow aggregation is empty. -/
theorem claim5_witness :
    __doLoadAllRuntimePluginsFromPackageJson [driverA, driverB, driverC]
      = Except.ok [contribA, contribC]
    ∧ __doLoadAllWorkflowPlugins layout0 [driverA, driverB, driverC] = Except.ok [] := by
  have hwl : ∀ d ∈ [driverA, driverB, driverC], d.extendsWorkflow = true →
      d.loadWorkflowPlugin layout0 = Except.ok defaultWorkflowHooks := by
    intro d hd hext
    rcases List.mem_cons.mp hd with h1 | hd2
    · subst h1; exact absurd hext (by decide)
    rcases List.mem_cons.mp hd2 with h1 | hd3
    · subst h1; exact absurd hext (by decide)
    rcases List.mem_cons.mp hd3 with h1 | hd4
    · subst h1; exact absurd hext (by decide)
    · exact absurd hd4 (List.not_mem_nil d)
  have hrl : ∀ d ∈ [driverA, driverB, driverC], d.extendsRuntime = true →
      d.loadRuntimePlugin ()
        = Except.ok (some (if d.name = ("a".toList) then contribA else contribC)) := by
    intro d hd hext
    rcases List.mem_cons.mp hd with h1 | hd2
    · subst h1; rfl
    rcases List.mem_cons.mp hd2 with h1 | hd3
    · subst h1; exact absurd hext (by decide)
    rcases List.mem_cons.mp hd3 with h1 | hd4
    · subst h1; rfl
    · exact absurd hd4 (List.not_mem_nil d)
  have h := claim5_aggregation_order [driverA, driverB, driverC] layout0
    (fun _ => defaultWorkflowHooks)
    (fun d => if d.name = ("a".toList) then contribA else contribC) hwl hrl
  exact ⟨h.2.1.trans rfl, h.1.trans rfl⟩

/-- Claim C8, counterexample to the claim as stated: the two registration
slots live in the scope of create, not of the returned creator, so they do
not start unset at the beginning of every application; after a first
application of a creator whose defining function registers a workflow
definer, the slot state carried into a second application already holds a
workflow definer, while a fresh creator starts with the slot unset. -/
theorem claim8_counterexample :
    emptyCreateState.maybeWorkflowPlugin = none
    ∧ ((create [RegEvent.workflow exampleWorkflowFn] emptyCreateState
        ("auth".toList)).2).maybeWorkflowPlugin.isSome = true :=
  ⟨rfl, rfl⟩

/-- Claim C8, amended: the slots are created unset when create(definer)
builds the creator, so they are unset at the first application and persist
across applications of the same creator; the defining function is invoked
exactly once per application (one folding of its registrar calls over the
slot state); because registrar writes overwrite the slots, a second
application returns exactly the driver and state of the first, and the
flags of the returned driver reflect exactly the registrations the
defining function performs during that application. -/
theorem claim8_creator_slots_amended (definer : Definer) (pluginName : JsString) :
    emptyCreateState.maybeWorkflowPlugin = none
    ∧ emptyCreateState.maybeRuntimePlugin = none
    ∧ (create definer emptyCreateState pluginName).2 = runDefiner definer emptyCreateState
    ∧ create definer (create definer emptyCreateState pluginName).2 pluginName
        = create definer emptyCreateState pluginName
    ∧ (create definer emptyCreateState pluginName).1.extendsWorkflow
        = registersWorkflow definer
    ∧ (create definer emptyCreateState pluginName).1.extendsRuntime
        = registersRuntime definer := by
  refine ⟨rfl, rfl, rfl, ?_, createDriver_extendsWorkflow definer pluginName,
    createDriver_extendsRuntime definer pluginName⟩
  have h2 := runDefiner_idem definer emptyCreateState
  show create definer (runDefiner definer emptyCreateState) pluginName
      = create definer emptyCreateState pluginName
  unfold create
  rw [h2]

/-- Claim C9: repeated loader calls on the same driver are equivalent; the
loaders are pure functions of the snapshot of the registration slots, each
workflow load applies the registered definer to a fresh fully-shaped
default record, and each runtime load re-invokes the registered producer;
the aggregation layer introduces no double-registration effects. -/
theorem claim9_loader_repeat (definer : Definer) (pluginName : JsString)
    (layout : Layout) :
    (createDriver definer pluginName).loadWorkflowPlugin layout
      = (createDriver definer pluginName).loadWorkflowPlugin layout
    ∧ (createDriver definer pluginName).loadRuntimePlugin ()
      = (createDriver definer pluginName).loadRuntimePlugin ()
    ∧ (∀ f, lastWorkflow definer = some f →
        (createDriver definer pluginName).loadWorkflowPlugin layout
          = f defaultWorkflowHooks layout)
    ∧ (∀ g, lastRuntime definer = some g →
        (createDriver definer pluginName).loadRuntimePlugin ()
          = Except.map some (g ())) := by
  refine ⟨rfl, rfl, ?_, ?_⟩
  · intro f hf
    rw [createDriver_loadWorkflow, hf]
  · intro g hg
    rw [createDriver_loadRuntime, hg]

/-- Claim C9, witness: a plugin registering both a workflow definer and a
runtime producer has each loader call built from the fresh default record
and from a fresh producer invocation. -/
theorem claim9_witness :
    (createDriver [RegEvent.workflow exampleWorkflowFn, RegEvent.runtime exampleRuntimeFnA]
        ("both".toList)).loadWorkflowPlugin layout0
      = exampleWorkflowFn defaultWorkflowHooks layout0
    ∧ (createDriver [RegEvent.workflow exampleWorkflowFn, RegEvent.runtime exampleRuntimeFnA]
        ("both".toList)).loadRuntimePlugin ()
      = Except.map some (exampleRuntimeFnA ()) := by
  have h := claim9_loader_repeat
    [RegEvent.workflow exampleWorkflowFn, RegEvent.runtime exampleRuntimeFnA]
    ("both".toList) layout0
  exact ⟨h.2.2.1 exampleWorkflowFn rfl, h.2.2.2 exampleRuntimeFnA rfl⟩
